import Mathlib

/-!
# Package `tracing` (src/tracing/tracing.go)

A shallow embedding of the tracing seam of Pilosa: the `Tracer` and `Span`
interfaces, the package variable `GlobalTracer`, the package-level
`StartSpanFromContext`, and the no-op implementation `nopTracer` / `nopSpan`.

Conventions of the embedding

* A Go pointer `*T` is an `Option T`: `none` is the nil pointer, `some v` a
  pointer to an object whose current contents are `v`.
* A Go call is a function from the memory it can reach (the package state and
  the objects behind its pointer and slice arguments) to an outcome together
  with that memory after the call.  The outcome is `Except Panic _`:
  `.ok v` when the call returns `v`, `.error p` when it panics.  The memory is
  returned in both cases, since a Go panic does not undo earlier writes.
* A Go interface value is an inductive type: the nil interface, or one
  constructor per implementing type.  Implementations living outside this
  package are reached through a method table (`Env`).
-/

namespace Tracing

/-! ## Values of the Go runtime and standard library used by the package -/

/-- Run-time panics a call of this package can raise. -/
inductive Panic
  | nilDereference
deriving DecidableEq, Repr

/-- Values of interface type `context.Context`: the nil interface, the two
empty contexts of the standard library, and contexts derived from a parent. -/
inductive Context
  | nil
  | background
  | todo
  | withValue (parent : Context) (key val : String)
deriving DecidableEq, Repr

/-- Values of type `interface{}`, as passed to `LogKV`. -/
inductive Value
  | nil
  | bool (b : Bool)
  | int (i : Int)
  | str (s : String)
deriving DecidableEq, Repr

/-- The fields of `http.Request` a tracer reads or writes: the request line,
the header map, the body, and the unexported context field `ctx`
(which may hold the nil interface). -/
structure Request where
  method : String
  url : String
  header : List (String × List String)
  body : List Nat
  ctx : Context
deriving DecidableEq, Repr

/-- The standard library method `func (r *Request) Context() context.Context`:
it returns `r.ctx` when that is not nil and `context.Background()` otherwise.
Reading `r.ctx` through a nil `r` is a nil pointer dereference. -/
def Request.Context (r : Option Request) : Except Panic Context :=
  match r with
  | none => .error .nilDereference
  | some req => if req.ctx ≠ Context.nil then .ok req.ctx else .ok Context.background

/-! ## The package: interfaces, state, no-op implementation -/

/-- The type `nopTracer struct{}` (line 57). -/
structure nopTracer where
deriving DecidableEq, Repr

/-- The type `nopSpan struct{}` (line 69). -/
structure nopSpan where
deriving DecidableEq, Repr

/-- Values of interface type `Span` (lines 44-50): the nil interface, a
`*nopSpan`, or a span of an implementation outside the package. -/
inductive Span
  | nil
  | nopSpan (s : Option nopSpan)
  | ext (id : Nat)
deriving DecidableEq, Repr

/-- Values of interface type `Tracer` (lines 32-41): the nil interface, a
`*nopTracer`, or a tracer of an implementation outside the package. -/
inductive Tracer
  | nil
  | nopTracer (t : Option nopTracer)
  | ext (id : Nat)
deriving DecidableEq, Repr

/-- The state a call can reach besides its arguments: the package variable
`GlobalTracer` (line 23) and the state `world` of whatever lives outside the
package (a tracing backend, its collector). -/
structure State (σ : Type) where
  GlobalTracer : Tracer
  world : σ
deriving DecidableEq, Repr

/-- Method set of the interface `Tracer` (lines 32-41) for one implementing
type. -/
structure TracerImpl (σ : Type) where
  StartSpanFromContext : Context → String → State σ →
    Except Panic (Span × Context) × State σ
  InjectHTTPHeaders : Option Request → State σ →
    Except Panic Unit × Option Request × State σ
  ExtractHTTPHeaders : Option Request → State σ →
    Except Panic (Span × Context) × Option Request × State σ

/-- Method set of the interface `Span` (lines 44-50) for one implementing
type. -/
structure SpanImpl (σ : Type) where
  Finish : State σ → Except Panic Unit × State σ
  LogKV : List Value → State σ → Except Panic Unit × List Value × State σ

/-- Method tables of the implementations outside the package. -/
structure Env (σ : Type) where
  tracers : Nat → TracerImpl σ
  spans : Nat → SpanImpl σ

variable {σ : Type}

/-- The method `func (t *nopTracer) StartSpanFromContext(ctx, operationName)`
(lines 59-61): `return &nopSpan{}, ctx`. -/
def nopTracer.StartSpanFromContext (_t : Option nopTracer) (ctx : Context)
    (_operationName : String) (st : State σ) :
    Except Panic (Span × Context) × State σ :=
  (.ok (Span.nopSpan (some {}), ctx), st)

/-- The method `func (t *nopTracer) InjectHTTPHeaders(r *http.Request) {}`
(line 63). -/
def nopTracer.InjectHTTPHeaders (_t : Option nopTracer) (r : Option Request)
    (st : State σ) : Except Panic Unit × Option Request × State σ :=
  (.ok (), r, st)

/-- The method `func (t *nopTracer) ExtractHTTPHeaders(r *http.Request)`
(lines 65-67): `return &nopSpan{}, r.Context()`. -/
def nopTracer.ExtractHTTPHeaders (_t : Option nopTracer) (r : Option Request)
    (st : State σ) : Except Panic (Span × Context) × Option Request × State σ :=
  match Request.Context r with
  | .error p => (.error p, r, st)
  | .ok c => (.ok (Span.nopSpan (some {}), c), r, st)

/-- The method `func (s *nopSpan) Finish() {}` (line 71). -/
def nopSpan.Finish (_s : Option nopSpan) (st : State σ) :
    Except Panic Unit × State σ :=
  (.ok (), st)

/-- The method `func (s *nopSpan) LogKV(alternatingKeyValues ...interface{}) {}`
(line 72). -/
def nopSpan.LogKV (_s : Option nopSpan) (alternatingKeyValues : List Value)
    (st : State σ) : Except Panic Unit × List Value × State σ :=
  (.ok (), alternatingKeyValues, st)

/-- The function `func NopTracer() Tracer` (lines 53-55): `return &nopTracer{}`. -/
def NopTracer : Tracer :=
  Tracer.nopTracer (some {})

/-- The package state after initialisation: `var GlobalTracer Tracer = NopTracer()`
(line 23). -/
def initState (w : σ) : State σ :=
  { GlobalTracer := NopTracer, world := w }

/-- An assignment `tracing.GlobalTracer = t`. -/
def setGlobalTracer (t : Tracer) (st : State σ) : State σ :=
  { st with GlobalTracer := t }

/-- A call `t.StartSpanFromContext(ctx, operationName)` on an interface value
`t`: dispatch on the dynamic type; on the nil interface the call panics. -/
def Tracer.StartSpanFromContext (env : Env σ) (t : Tracer) (ctx : Context)
    (operationName : String) (st : State σ) :
    Except Panic (Span × Context) × State σ :=
  match t with
  | .nil => (.error .nilDereference, st)
  | .nopTracer p => nopTracer.StartSpanFromContext p ctx operationName st
  | .ext id => (env.tracers id).StartSpanFromContext ctx operationName st

/-- A call `t.InjectHTTPHeaders(r)` on an interface value `t`. -/
def Tracer.InjectHTTPHeaders (env : Env σ) (t : Tracer) (r : Option Request)
    (st : State σ) : Except Panic Unit × Option Request × State σ :=
  match t with
  | .nil => (.error .nilDereference, r, st)
  | .nopTracer p => nopTracer.InjectHTTPHeaders p r st
  | .ext id => (env.tracers id).InjectHTTPHeaders r st

/-- A call `t.ExtractHTTPHeaders(r)` on an interface value `t`. -/
def Tracer.ExtractHTTPHeaders (env : Env σ) (t : Tracer) (r : Option Request)
    (st : State σ) : Except Panic (Span × Context) × Option Request × State σ :=
  match t with
  | .nil => (.error .nilDereference, r, st)
  | .nopTracer p => nopTracer.ExtractHTTPHeaders p r st
  | .ext id => (env.tracers id).ExtractHTTPHeaders r st

/-- A call `s.Finish()` on an interface value `s`. -/
def Span.Finish (env : Env σ) (s : Span) (st : State σ) :
    Except Panic Unit × State σ :=
  match s with
  | .nil => (.error .nilDereference, st)
  | .nopSpan p => nopSpan.Finish p st
  | .ext id => (env.spans id).Finish st

/-- A call `s.LogKV(kvs...)` on an interface value `s`. -/
def Span.LogKV (env : Env σ) (s : Span) (alternatingKeyValues : List Value)
    (st : State σ) : Except Panic Unit × List Value × State σ :=
  match s with
  | .nil => (.error .nilDereference, alternatingKeyValues, st)
  | .nopSpan p => nopSpan.LogKV p alternatingKeyValues st
  | .ext id => (env.spans id).LogKV alternatingKeyValues st

/-- The package-level `func StartSpanFromContext(ctx, operationName)`
(lines 27-29): `return GlobalTracer.StartSpanFromContext(ctx, operationName)`. -/
def StartSpanFromContext (env : Env σ) (ctx : Context) (operationName : String)
    (st : State σ) : Except Panic (Span × Context) × State σ :=
  Tracer.StartSpanFromContext env st.GlobalTracer ctx operationName st

/-! ## Sequences of calls on a no-op span -/

/-- One call on a span: `Finish()` or `LogKV(kvs...)` with its argument list. -/
inductive SpanCall
  | Finish
  | LogKV (alternatingKeyValues : List Value)
deriving DecidableEq, Repr

/-- Perform one call on a `*nopSpan`; the call is returned with its argument
list as it stands after the call. -/
def nopSpan.call (s : Option nopSpan) (c : SpanCall) (st : State σ) :
    Except Panic Unit × SpanCall × State σ :=
  match c with
  | .Finish =>
    let (o, st1) := nopSpan.Finish s st
    (o, .Finish, st1)
  | .LogKV kvs =>
    let (o, kvs1, st1) := nopSpan.LogKV s kvs st
    (o, .LogKV kvs1, st1)

/-- Perform a sequence of calls on a `*nopSpan`, one after the other, stopping
at the first one that panics; the calls are returned with their argument lists
as they stand afterwards. -/
def nopSpan.calls (s : Option nopSpan) (cs : List SpanCall) (st : State σ) :
    Except Panic Unit × List SpanCall × State σ :=
  match cs with
  | [] => (.ok (), [], st)
  | c :: rest =>
    match nopSpan.call s c st with
    | (.error p, c1, st1) => (.error p, c1 :: rest, st1)
    | (.ok _, c1, st1) =>
      let (o, rest1, st2) := nopSpan.calls s rest st1
      (o, c1 :: rest1, st2)

/-! ## A tracing backend outside the package, used in examples -/

/-- A span of the example backend: `Finish` and `LogKV` each count one report. -/
def countingSpan : SpanImpl Nat where
  Finish := fun st => (.ok (), { st with world := st.world + 1 })
  LogKV := fun kvs st => (.ok (), kvs, { st with world := st.world + 1 })

/-- A tracer of the example backend: starting a span counts one report and
derives a child context; injection adds one header; extraction reads the
request context. -/
def countingTracer : TracerImpl Nat where
  StartSpanFromContext := fun ctx operationName st =>
    (.ok (Span.ext 0, Context.withValue ctx "span" operationName),
      { st with world := st.world + 1 })
  InjectHTTPHeaders := fun r st =>
    match r with
    | none => (.error .nilDereference, r, st)
    | some req =>
      (.ok (), some { req with header := ("X-Trace", ["1"]) :: req.header }, st)
  ExtractHTTPHeaders := fun r st =>
    match Request.Context r with
    | .error p => (.error p, r, st)
    | .ok c => (.ok (Span.ext 0, c), r, { st with world := st.world + 1 })

/-- The method tables with the example backend at every index. -/
def countingEnv : Env Nat where
  tracers := fun _ => countingTracer
  spans := fun _ => countingSpan

/-- A sample request: `GET /index` with one header and no context set. -/
def sampleRequest : Request :=
  { method := "GET", url := "/index", header := [("Accept", ["*/*"])],
    body := [], ctx := Context.nil }

/-! ## Basic facts -/

/-- The standard library `Context()` of a non-nil request returns without a
panic. -/
theorem Request.Context_some (req : Request) :
    Request.Context (some req) =
      .ok (if req.ctx ≠ Context.nil then req.ctx else Context.background) := by
  show (if req.ctx ≠ Context.nil then Except.ok req.ctx else .ok Context.background) = _
  by_cases h : req.ctx ≠ Context.nil
  · rw [if_pos h, if_pos h]
  · rw [if_neg h, if_neg h]

/-- One call on a no-op span returns normally and leaves the call and the state
as they are. -/
theorem nopSpan.call_eq (s : Option nopSpan) (c : SpanCall) (st : State σ) :
    nopSpan.call s c st = (.ok (), c, st) := by
  cases c <;> rfl

/-- The embedding does record a write through a request pointer: the example
backend's injection adds a header to the sample request, where the no-op
tracer's injection leaves it as it is. -/
theorem countingTracer_InjectHTTPHeaders_sample (w : Nat) :
    (Tracer.InjectHTTPHeaders countingEnv (Tracer.ext 0) (some sampleRequest)
        (initState w)).2.1 ≠ some sampleRequest ∧
      (Tracer.InjectHTTPHeaders countingEnv NopTracer (some sampleRequest)
        (initState w)).2.1 = some sampleRequest := by
  refine ⟨?_, rfl⟩
  intro h
  have h1 : some { sampleRequest with header := ("X-Trace", ["1"]) :: sampleRequest.header } =
      some sampleRequest := h
  revert h1
  decide

/-! ## The claims -/

/-- C1: for every context (the nil one included), every operation name, every
receiver and every state, the no-op tracer's `StartSpanFromContext` returns
normally the span `&nopSpan{}`, which is not the nil span, together with
exactly the context it was given, and leaves the state as it is. -/
theorem C1_nopTracer_StartSpanFromContext (t : Option nopTracer) (ctx : Context)
    (operationName : String) (st : State σ) :
    nopTracer.StartSpanFromContext t ctx operationName st =
        (.ok (Span.nopSpan (some {}), ctx), st) ∧
      Span.nopSpan (some {}) ≠ Span.nil := by
  exact ⟨rfl, fun h => Span.noConfusion h⟩

/-- C2: for every request `req`, the no-op tracer's `ExtractHTTPHeaders` on a
pointer to `req` returns normally a span that is not nil and a context that is
the one `req.Context()` returns. -/
theorem C2_nopTracer_ExtractHTTPHeaders (t : Option nopTracer) (req : Request)
    (st : State σ) :
    ∃ sp c, (nopTracer.ExtractHTTPHeaders t (some req) st).1 = .ok (sp, c) ∧
      sp ≠ Span.nil ∧ Request.Context (some req) = .ok c := by
  refine ⟨Span.nopSpan (some {}), _, ?_, fun h => Span.noConfusion h,
    Request.Context_some req⟩
  unfold nopTracer.ExtractHTTPHeaders
  rw [Request.Context_some]

/-- C3: for every request pointer `r` (nil or not), the no-op tracer's
`InjectHTTPHeaders` returns normally and the request behind `r`, headers and
every other field, is after the call what it was before; so is the state. -/
theorem C3_nopTracer_InjectHTTPHeaders (t : Option nopTracer) (r : Option Request)
    (st : State σ) :
    nopTracer.InjectHTTPHeaders t r st = (.ok (), r, st) ∧
      (nopTracer.InjectHTTPHeaders t r st).2.1 = r ∧
      Option.map Request.header (nopTracer.InjectHTTPHeaders t r st).2.1 =
        Option.map Request.header r := by
  exact ⟨rfl, rfl, rfl⟩

/-- C4, as stated, fails: the no-op tracer's `ExtractHTTPHeaders` called with a
nil request does not return normally, it panics with a nil pointer
dereference (raised by `r.Context()`). -/
theorem C4_counterexample :
    (nopTracer.ExtractHTTPHeaders (some {}) none (initState ())).1 =
        .error Panic.nilDereference ∧
      ¬ ∃ v, (nopTracer.ExtractHTTPHeaders (some {}) none (initState ())).1 = .ok v := by
  refine ⟨rfl, ?_⟩
  rintro ⟨v, hv⟩
  exact Except.noConfusion hv

/-- C4, amended: every operation of the no-op tracer and span returns normally
for every input of its parameter types, a nil request passed to
`InjectHTTPHeaders` included; `ExtractHTTPHeaders` returns normally for every
request pointer that is not nil. -/
theorem C4_nop_operations_total :
    (∀ (t : Option nopTracer) (ctx : Context) (operationName : String) (st : State σ),
        ∃ v, (nopTracer.StartSpanFromContext t ctx operationName st).1 = .ok v) ∧
      (∀ (t : Option nopTracer) (r : Option Request) (st : State σ),
        (nopTracer.InjectHTTPHeaders t r st).1 = .ok ()) ∧
      (∀ (t : Option nopTracer) (req : Request) (st : State σ),
        ∃ v, (nopTracer.ExtractHTTPHeaders t (some req) st).1 = .ok v) ∧
      (∀ (s : Option nopSpan) (st : State σ), (nopSpan.Finish s st).1 = .ok ()) ∧
      (∀ (s : Option nopSpan) (kvs : List Value) (st : State σ),
        (nopSpan.LogKV s kvs st).1 = .ok ()) := by
  refine ⟨fun _ _ _ _ => ⟨_, rfl⟩, fun _ _ _ => rfl, ?_, fun _ _ => rfl,
    fun _ _ _ => rfl⟩
  intro t req st
  unfold nopTracer.ExtractHTTPHeaders
  rw [Request.Context_some]
  exact ⟨_, rfl⟩

/-- C5: every finite sequence of `Finish` and `LogKV` calls on a no-op span,
with any argument lists, runs to its end without a panic and leaves the
argument lists and the state (the global tracer in it) as they were; the span
itself has no field that could change. -/
theorem C5_nopSpan_calls (s : Option nopSpan) (cs : List SpanCall) (st : State σ) :
    nopSpan.calls s cs st = (.ok (), cs, st) ∧
      (nopSpan.calls s cs st).2.2.GlobalTracer = st.GlobalTracer ∧
      ∀ a b : nopSpan, a = b := by
  have h : nopSpan.calls s cs st = (.ok (), cs, st) := by
    induction cs with
    | nil => rfl
    | cons c rest ih =>
      unfold nopSpan.calls
      rw [nopSpan.call_eq]
      simp only [ih]
  refine ⟨h, ?_, fun a b => rfl⟩
  rw [h]

/-- C6: in the state the package is initialised to, the global tracer is the
no-op tracer; the package-level `StartSpanFromContext` called with an empty
context (`context.Background()` or `context.TODO()`) and the name "op" returns
normally a span that is not nil and the same context, leaving the state as it
is; `Finish` on that span returns normally and leaves the state as it is. -/
theorem C6_default_scenario (env : Env σ) (w : σ) :
    (initState w).GlobalTracer = NopTracer ∧
      StartSpanFromContext env Context.background "op" (initState w) =
        (.ok (Span.nopSpan (some {}), Context.background), initState w) ∧
      StartSpanFromContext env Context.todo "op" (initState w) =
        (.ok (Span.nopSpan (some {}), Context.todo), initState w) ∧
      Span.nopSpan (some {}) ≠ Span.nil ∧
      Span.Finish env (Span.nopSpan (some {})) (initState w) =
        (.ok (), initState w) := by
  exact ⟨rfl, rfl, rfl, fun h => Span.noConfusion h, rfl⟩

/-- C7: for every tracer `t` assigned to `GlobalTracer`, every context and
every operation name, the package-level `StartSpanFromContext` gives the
outcome and the state that `t.StartSpanFromContext` gives on the same
arguments; the tracer used is the one installed when the call is made: after
the example backend replaces the initial no-op tracer, the call returns the
backend's span and derived context, not the no-op ones. -/
theorem C7_StartSpanFromContext_delegates (env : Env σ) (t : Tracer) (ctx : Context)
    (operationName : String) (st : State σ) (w : Nat) :
    StartSpanFromContext env ctx operationName (setGlobalTracer t st) =
        Tracer.StartSpanFromContext env t ctx operationName (setGlobalTracer t st) ∧
      StartSpanFromContext countingEnv ctx operationName
          (setGlobalTracer (Tracer.ext 0) (initState w)) =
        countingTracer.StartSpanFromContext ctx operationName
          (setGlobalTracer (Tracer.ext 0) (initState w)) ∧
      (StartSpanFromContext countingEnv ctx operationName
          (setGlobalTracer (Tracer.ext 0) (initState w))).1 ≠
        (StartSpanFromContext countingEnv ctx operationName (initState w)).1 := by
  refine ⟨rfl, rfl, ?_⟩
  intro h
  have h1 : (Except.ok (Span.ext 0, Context.withValue ctx "span" operationName) :
      Except Panic (Span × Context)) = .ok (Span.nopSpan (some {}), ctx) := h
  injection h1 with h2
  injection h2 with h3 _
  exact Span.noConfusion h3

/-- C8: for every request pointer `r`, the no-op tracer's `ExtractHTTPHeaders`
leaves the request behind `r` (its headers and its context) and the state as
they were, whether it returns or panics; and none of the three operations of
the no-op tracer changes `GlobalTracer`. -/
theorem C8_nopTracer_frame (t : Option nopTracer) (r : Option Request)
    (ctx : Context) (operationName : String) (st : State σ) :
    (nopTracer.ExtractHTTPHeaders t r st).2 = (r, st) ∧
      Option.map Request.header (nopTracer.ExtractHTTPHeaders t r st).2.1 =
        Option.map Request.header r ∧
      Option.map Request.ctx (nopTracer.ExtractHTTPHeaders t r st).2.1 =
        Option.map Request.ctx r ∧
      (nopTracer.ExtractHTTPHeaders t r st).2.2.GlobalTracer = st.GlobalTracer ∧
      (nopTracer.InjectHTTPHeaders t r st).2.2.GlobalTracer = st.GlobalTracer ∧
      (nopTracer.StartSpanFromContext t ctx operationName st).2.GlobalTracer =
        st.GlobalTracer := by
  have h : (nopTracer.ExtractHTTPHeaders t r st).2 = (r, st) := by
    unfold nopTracer.ExtractHTTPHeaders
    split <;> rfl
  refine ⟨h, ?_, ?_, ?_, rfl, rfl⟩ <;> rw [h]

end Tracing
